import Mathlib

/-!
Shallow embedding of the enrollment / grading / access-control core of the
St. George's Biology Class LMS (Flask + SQLAlchemy application in
`src/app.py` and `src/models.py`), together with proofs of the spec claims.

Database tables are embedded as Lean structures, table contents as lists of
rows, and each route handler's state-changing body as a pure function from
the old table contents (plus the request's fields) to the new table contents
and a user-visible outcome.  Timestamps (`datetime.utcnow()`) are abstract
`Nat` parameters; row ids assigned by the database are explicit parameters.
-/

namespace BioLMS

/-! String helpers

Python's `str.upper` / `str.lower` on the ASCII letters appearing in option
letters and file extensions, and substring search matching SQLite's default
`LIKE` semantics (case-insensitive on ASCII), which is what SQLAlchemy's
`Column.contains` compiles to under the configured
`sqlite:///biology_lms.db` database. -/

def upperAscii (s : String) : String := String.mk (s.toList.map Char.toUpper)

def lowerAscii (s : String) : String := String.mk (s.toList.map Char.toLower)

/-- Tests whether `needle` occurs as a contiguous subsequence of the character list. -/
def listContainsSeq (needle : List Char) : List Char → Bool
  | [] => needle.isEmpty
  | hd :: tl => needle.isPrefixOf (hd :: tl) || listContainsSeq needle tl

/-- SQLite's `LIKE` pattern matcher under the default
`PRAGMA case_sensitive_like = OFF`: `%` matches any character sequence, `_`
matches any single character, and every other pattern character compares
ASCII-case-insensitively.  The fuel argument only bounds the recursion
structurally and `likeMatch` always supplies enough of it. -/
def likeMatchFuel : Nat → List Char → List Char → Bool
  | 0, _, _ => false
  | _ + 1, [], s => s.isEmpty
  | fuel + 1, p :: ps, [] =>
    if p = '%' then likeMatchFuel fuel ps [] else false
  | fuel + 1, p :: ps, c :: s2 =>
    if p = '%' then
      likeMatchFuel fuel ps (c :: s2) || likeMatchFuel fuel (p :: ps) s2
    else
      (if p = '_' then true else p.toLower = c.toLower) && likeMatchFuel fuel ps s2

/-- Evaluates `s LIKE pattern` (as character lists). -/
def likeMatch (pattern s : List Char) : Bool :=
  likeMatchFuel (pattern.length + s.length + 1) pattern s

/-- Evaluates `haystack LIKE '%needle%'`: what SQLAlchemy's `Column.contains(needle)`
compiles to under the configured SQLite database.  The needle is spliced into
the pattern verbatim — `contains` does not escape the `%` and `_` wildcards. -/
def likeContains (haystack needle : String) : Bool :=
  likeMatch ('%' :: (needle.toList ++ ['%'])) haystack.toList

/-- Behavior of `LIKE` on a nullable column: SQL `NULL LIKE x` is not true. -/
def likeContainsOpt (haystack : Option String) (needle : String) : Bool :=
  match haystack with
  | none => false
  | some h => likeContains h needle

/-- The spec's wording of the search predicate ("case-insensitive substring
match"): the needle, lowercased, occurs contiguously in the lowercased
haystack.  Stated from the spec's words, for comparison with the code's
`LIKE` semantics. -/
def specContainsCI (haystack needle : String) : Bool :=
  listContainsSeq (lowerAscii needle).toList (lowerAscii haystack).toList

/-- The spec's substring predicate on a nullable column. -/
def specContainsOpt (haystack : Option String) (needle : String) : Bool :=
  match haystack with
  | none => false
  | some h => specContainsCI h needle

/-- The search string is free of the SQL `LIKE` wildcards, on which the
`LIKE` semantics and the spec's substring semantics agree. -/
def noWildcards (s : String) : Prop := '%' ∉ s.toList ∧ '_' ∉ s.toList

/-- The set `Config.ALLOWED_EXTENSIONS` from `src/config.py`. -/
def ALLOWED_EXTENSIONS : List String :=
  ["pdf", "doc", "docx", "ppt", "pptx", "mp4", "mp3", "wav",
   "jpg", "jpeg", "png", "gif"]

/-- Python's `filename.rsplit('.', 1)[1].lower()`: the text after the last dot,
lowercased (callers guard on a dot being present). -/
def extAfterLastDot (filename : String) : String :=
  String.mk (((filename.toList.reverse.takeWhile (fun c => c ≠ '.')).reverse).map Char.toLower)

/-- Predicate `allowed_file` from `src/app.py` (lines 87-90). -/
def allowed_file (filename : String) : Bool :=
  filename.toList.contains '.' &&
    ALLOWED_EXTENSIONS.contains (extAfterLastDot filename)

/-- Python truthiness of an optional form string: `None` and `''` are falsy. -/
def optStrFalsy : Option String → Bool
  | none => true
  | some s => s.isEmpty

/-! Users, courses, enrollments (`src/models.py`) -/

/-- Column `users.user_type`: the application only ever stores these three tags. -/
inductive UserType
  | admin
  | teacher
  | student
deriving DecidableEq, Repr

/-- The fields of the `users` table that the claims depend on. -/
structure User where
  id : Nat
  user_type : UserType
  has_paid : Bool
deriving DecidableEq, Repr

def User.is_admin (u : User) : Bool := u.user_type = UserType.admin

def User.is_teacher (u : User) : Bool := u.user_type = UserType.teacher

def User.is_student (u : User) : Bool := u.user_type = UserType.student

/-- The `courses` table.  `teacher_id` is a nullable foreign key, and
`max_students` is an SQL `Integer` column (default 50). -/
structure Course where
  id : Nat
  max_students : Int
  teacher_id : Option Nat
deriving DecidableEq, Repr

/-- Column `enrollments.status`: 'pending', 'approved' or 'declined'. -/
inductive EnrollmentStatus
  | pending
  | approved
  | declined
deriving DecidableEq, Repr

/-- The `enrollments` table. -/
structure Enrollment where
  id : Nat
  status : EnrollmentStatus
  requested_at : Nat
  responded_at : Option Nat
  student_id : Nat
  course_id : Nat
deriving DecidableEq, Repr

/-- Property `Course.enrolled_count` (`src/models.py` lines 107-110): the number of
approved enrollment rows of this course. -/
def Course.enrolled_count (c : Course) (enrollments : List Enrollment) : Nat :=
  (enrollments.filter
    (fun e => decide (e.course_id = c.id) && decide (e.status = EnrollmentStatus.approved))).length

/-- Property `Course.is_full` (`src/models.py` lines 112-115). -/
def Course.is_full (c : Course) (enrollments : List Enrollment) : Bool :=
  decide ((c.enrolled_count enrollments : Int) ≥ c.max_students)

/-- Method `User.can_access_course` (`src/models.py` lines 65-77): teachers must own
the course, students must hold an approved enrollment, everyone else
(including admins) is refused. -/
def User.can_access_course (u : User) (course_id : Nat)
    (courses : List Course) (enrollments : List Enrollment) : Bool :=
  if u.is_teacher then
    match courses.find? (fun c => decide (c.id = course_id)) with
    | some course => decide (course.teacher_id = some u.id)
    | none => false
  else if u.is_student then
    (enrollments.find?
      (fun e => decide (e.student_id = u.id) && decide (e.course_id = course_id) &&
        decide (e.status = EnrollmentStatus.approved))).isSome
  else
    false

/-! Enrollment routes (`src/app.py`) -/

/-- The user-visible outcome of `request_enrollment`. -/
inductive RequestOutcome
  | created
  | notPaid
  | alreadyRequested (status : EnrollmentStatus)
  | courseFull
deriving DecidableEq, Repr

/-- Route `request_enrollment` (`src/app.py` lines 571-618), the state-changing body
run for an authenticated student on an existing course: payment check, then
duplicate check, then capacity check, then insert of a pending row. -/
def request_enrollment (student : User) (course : Course) (now newId : Nat)
    (enrollments : List Enrollment) : List Enrollment × RequestOutcome :=
  if !student.has_paid then
    (enrollments, RequestOutcome.notPaid)
  else
    match enrollments.find?
        (fun e => decide (e.student_id = student.id) && decide (e.course_id = course.id)) with
    | some e => (enrollments, RequestOutcome.alreadyRequested e.status)
    | none =>
      if course.is_full enrollments then
        (enrollments, RequestOutcome.courseFull)
      else
        (enrollments ++
          [{ id := newId, status := EnrollmentStatus.pending, requested_at := now,
             responded_at := none, student_id := student.id, course_id := course.id }],
         RequestOutcome.created)

/-- Outcome of the approve / decline routes. -/
inductive RespondOutcome
  | ok
  | accessDenied
  | notFound
deriving DecidableEq, Repr

/-- The row update performed by the approve routes: only `status` and
`responded_at` of the row with the given id change. -/
def approveUpd (eid now : Nat) (e : Enrollment) : Enrollment :=
  if e.id = eid then
    { e with status := EnrollmentStatus.approved, responded_at := some now }
  else e

/-- The row update performed by the decline routes. -/
def declineUpd (eid now : Nat) (e : Enrollment) : Enrollment :=
  if e.id = eid then
    { e with status := EnrollmentStatus.declined, responded_at := some now }
  else e

/-- Route `approve_enrollment` (`src/app.py` lines 621-646): teacher route; after the
404 lookup it denies unless the enrollment's course is owned by the caller,
then unconditionally (no check of the current status) rewrites `status` and
`responded_at`. -/
def approve_enrollment (teacher : User) (eid now : Nat)
    (courses : List Course) (enrollments : List Enrollment) :
    List Enrollment × RespondOutcome :=
  match enrollments.find? (fun e => decide (e.id = eid)) with
  | none => (enrollments, RespondOutcome.notFound)
  | some e =>
    match courses.find? (fun c => decide (c.id = e.course_id)) with
    | none => (enrollments, RespondOutcome.notFound)
    | some course =>
      if course.teacher_id ≠ some teacher.id then
        (enrollments, RespondOutcome.accessDenied)
      else
        (enrollments.map (approveUpd eid now), RespondOutcome.ok)

/-- Route `decline_enrollment` (`src/app.py` lines 649-674). -/
def decline_enrollment (teacher : User) (eid now : Nat)
    (courses : List Course) (enrollments : List Enrollment) :
    List Enrollment × RespondOutcome :=
  match enrollments.find? (fun e => decide (e.id = eid)) with
  | none => (enrollments, RespondOutcome.notFound)
  | some e =>
    match courses.find? (fun c => decide (c.id = e.course_id)) with
    | none => (enrollments, RespondOutcome.notFound)
    | some course =>
      if course.teacher_id ≠ some teacher.id then
        (enrollments, RespondOutcome.accessDenied)
      else
        (enrollments.map (declineUpd eid now), RespondOutcome.ok)

/-- Route `admin_approve_enrollment` (`src/app.py` lines 677-696): admin override,
no ownership check. -/
def admin_approve_enrollment (eid now : Nat) (enrollments : List Enrollment) :
    List Enrollment × RespondOutcome :=
  match enrollments.find? (fun e => decide (e.id = eid)) with
  | none => (enrollments, RespondOutcome.notFound)
  | some _ => (enrollments.map (approveUpd eid now), RespondOutcome.ok)

/-- Route `admin_decline_enrollment` (`src/app.py` lines 699-718). -/
def admin_decline_enrollment (eid now : Nat) (enrollments : List Enrollment) :
    List Enrollment × RespondOutcome :=
  match enrollments.find? (fun e => decide (e.id = eid)) with
  | none => (enrollments, RespondOutcome.notFound)
  | some _ => (enrollments.map (declineUpd eid now), RespondOutcome.ok)

/-! Grade percentage (`src/app.py` lines 93-97)

Python's `round(x, 2)` rounds to two decimal places with ties to the nearest
even hundredth; we model the arithmetic over exact rationals. -/

/-- Round a rational to the nearest integer, ties to even
(Python's `round` semantics). -/
def roundHalfEven (q : ℚ) : ℤ :=
  if q - ⌊q⌋ < 1/2 then ⌊q⌋
  else if q - ⌊q⌋ > 1/2 then ⌊q⌋ + 1
  else if Even ⌊q⌋ then ⌊q⌋ else ⌊q⌋ + 1

/-- Python's `round(x, 2)` over exact rationals. -/
def pyRound2 (q : ℚ) : ℚ := (roundHalfEven (q * 100) : ℚ) / 100

/-- Helper `calculate_grade_percentage` (`src/app.py` lines 93-97). -/
def calculate_grade_percentage (score max_score : ℤ) : ℚ :=
  if max_score = 0 then 0
  else pyRound2 (((score : ℚ) / (max_score : ℚ)) * 100)

/-! Quiz models and routes -/

/-- The `quizzes` table (fields used by the claims). -/
structure Quiz where
  id : Nat
  title : String
  total_points : Int
  course_id : Nat
deriving DecidableEq, Repr

/-- The `quiz_questions` table. -/
structure QuizQuestion where
  id : Nat
  question_text : String
  option_a : String
  option_b : String
  option_c : String
  option_d : String
  correct_option : String
  points : Int
  quiz_id : Nat
deriving DecidableEq, Repr

/-- The `quiz_submissions` table. -/
structure QuizSubmission where
  id : Nat
  total_score : Int
  graded : Bool
  graded_at : Option Nat
  student_id : Nat
  quiz_id : Nat
deriving DecidableEq, Repr

/-- The `quiz_answers` table. -/
structure QuizAnswer where
  submission_id : Nat
  question_id : Nat
  selected_option : String
  points_earned : Int
deriving DecidableEq, Repr

/-- One question's worth of form fields in `create_quiz`; all are
`request.form.get` results, with `""` standing for a missing/empty field
(both are falsy in the Python truthiness tests). -/
structure QuestionInput where
  question_text : String
  option_a : String
  option_b : String
  option_c : String
  option_d : String
  correct : String
  points : Int
deriving DecidableEq, Repr

/-- The validity test of `create_quiz` (`src/app.py` line 1217):
`question_text and all([option_a, option_b, option_c, option_d]) and correct_option`. -/
def validQuestion (qi : QuestionInput) : Bool :=
  !qi.question_text.isEmpty && !qi.option_a.isEmpty && !qi.option_b.isEmpty &&
    !qi.option_c.isEmpty && !qi.option_d.isEmpty && !qi.correct.isEmpty

/-- Loop body of `create_quiz`: accumulate total points and the added
question rows (ids handed out sequentially by the database). -/
def createQuizStep (quizId : Nat) (acc : Int × List QuizQuestion × Nat) (qi : QuestionInput) :
    Int × List QuizQuestion × Nat :=
  if validQuestion qi then
    (acc.1 + qi.points,
     acc.2.1 ++
       [{ id := acc.2.2, question_text := qi.question_text,
          option_a := qi.option_a, option_b := qi.option_b,
          option_c := qi.option_c, option_d := qi.option_d,
          correct_option := upperAscii qi.correct, points := qi.points,
          quiz_id := quizId }],
     acc.2.2 + 1)
  else acc

/-- Route `create_quiz` POST body (`src/app.py` lines 1183-1240), run for the owning
teacher: rejects an empty title, otherwise creates the quiz row with
`total_points` the sum of the valid questions' points, storing each valid
question with its correct option uppercased. -/
def create_quiz (quizId courseId firstQuestionId : Nat) (title : String)
    (inputs : List QuestionInput) : Option (Quiz × List QuizQuestion) :=
  if title.isEmpty then none
  else
    let r := inputs.foldl (createQuizStep quizId) (0, [], firstQuestionId)
    some ({ id := quizId, title := title, total_points := r.1, course_id := courseId },
          r.2.1)

/-- Score one question earns in `take_quiz`: the question's points when a
non-empty option was submitted and its uppercase form equals the stored
correct option, else 0. -/
def questionScore (form : Nat → Option String) (q : QuizQuestion) : Int :=
  match form q.id with
  | none => 0
  | some sel =>
    if sel.isEmpty then 0
    else if upperAscii sel = q.correct_option then q.points else 0

/-- Loop body of `take_quiz` (`src/app.py` lines 1288-1302): skip questions
with no (or an empty) submitted option, otherwise add an answer row and
accumulate the earned points. -/
def takeQuizStep (subId : Nat) (form : Nat → Option String)
    (acc : Int × List QuizAnswer) (q : QuizQuestion) : Int × List QuizAnswer :=
  match form q.id with
  | none => acc
  | some sel =>
    if sel.isEmpty then acc
    else
      let pe : Int := if upperAscii sel = q.correct_option then q.points else 0
      (acc.1 + pe,
       acc.2 ++ [{ submission_id := subId, question_id := q.id,
                   selected_option := upperAscii sel, points_earned := pe }])

/-- Route `take_quiz` POST body (`src/app.py` lines 1272-1311), run for an enrolled
student with no prior submission: creates the submission row (graded, with the
summed total) and one answer row per answered question, all in one commit. -/
def take_quiz (studentId quizId subId now : Nat) (questions : List QuizQuestion)
    (form : Nat → Option String) : QuizSubmission × List QuizAnswer :=
  let r := questions.foldl (takeQuizStep subId form) (0, [])
  ({ id := subId, total_score := r.1, graded := true, graded_at := some now,
     student_id := studentId, quiz_id := quizId },
   r.2)

/-! Essay submission (`src/app.py` lines 1392-1452) -/

/-- The `essays` table (fields used by the claims). -/
structure Essay where
  id : Nat
  allows_file_upload : Bool
  max_points : Int
  course_id : Nat
deriving DecidableEq, Repr

/-- The `essay_submissions` table (fields set by `submit_essay`). -/
structure EssaySubmission where
  student_id : Nat
  essay_id : Nat
  text_content : Option String
  uploaded_file : Option String
deriving DecidableEq, Repr

/-- A multipart file field: its client-supplied filename
(`""` models a falsy/absent filename). -/
structure FilePart where
  filename : String
deriving DecidableEq, Repr

/-- Result of the `submit_essay` POST body: the files written to the uploads
directory and the created row (`none` when the request was rejected). -/
structure EssaySubmitResult where
  savedFiles : List String
  row : Option EssaySubmission
deriving DecidableEq, Repr

/-- The stored filename computed by `submit_essay`:
`secure_filename(f"{datetime.utcnow().timestamp()}_{filename}")`, with
werkzeug's `secure_filename` passed in as an opaque external function. -/
def storedName (secureName : String → String) (now : Nat) (filename : String) : String :=
  secureName (toString now ++ "_" ++ filename)

/-- File-handling step of `submit_essay` (`src/app.py` lines 1420-1427): a
file is stored only when the essay allows file upload and the multipart field
carries a truthy, `allowed_file` filename; the returned value is the
`uploaded_file` local of the route (`none` when nothing was saved). -/
def essayUploadedFile (secureName : String → String) (essay : Essay) (now : Nat)
    (filePart : Option FilePart) : Option String :=
  if essay.allows_file_upload then
    match filePart with
    | none => none
    | some f =>
      if !f.filename.isEmpty && allowed_file f.filename then
        some (storedName secureName now f.filename)
      else none
  else none

/-- Route `submit_essay` POST body (`src/app.py` lines 1417-1442), run for an
enrolled student with no prior submission: the request is rejected (before any
row is created) when the text is falsy and no file was stored; otherwise
exactly one submission row is created. -/
def submit_essay (secureName : String → String) (essay : Essay)
    (studentId now : Nat) (text_content : Option String)
    (filePart : Option FilePart) : EssaySubmitResult :=
  let uploaded_file : Option String := essayUploadedFile secureName essay now filePart
  let saved : List String := uploaded_file.toList
  if optStrFalsy text_content && uploaded_file.isNone then
    { savedFiles := saved, row := none }
  else
    { savedFiles := saved,
      row := some { student_id := studentId, essay_id := essay.id,
                    text_content := text_content, uploaded_file := uploaded_file } }

/-! Library search (`src/app.py` lines 1994-2018) -/

/-- The `library_resources` table (fields used by the search route);
`description`, `tags` and `category` are nullable columns. -/
structure LibraryResource where
  id : Nat
  title : String
  description : Option String
  tags : Option String
  category : Option String
deriving DecidableEq, Repr

/-- The search filter of `library_index`: SQLAlchemy `contains` on title,
description and tags, compiled to SQLite `LIKE '%search%'`. -/
def libSearchMatch (search : String) (r : LibraryResource) : Bool :=
  likeContains r.title search || likeContainsOpt r.description search ||
    likeContainsOpt r.tags search

/-- Route `library_index` query building (`src/app.py` lines 2001-2018): the search
filter is applied only for a non-empty (truthy) `search` parameter, the exact
category filter only for a non-empty `category` parameter.  (The route then
orders by upload time, which does not change which rows are returned.) -/
def library_index (search category : String) (resources : List LibraryResource) :
    List LibraryResource :=
  let q1 := if !search.isEmpty then resources.filter (libSearchMatch search) else resources
  let q2 := if !category.isEmpty then
      q1.filter (fun r => decide (r.category = some category))
    else q1
  q2

/-- The spec's wording of the whole search filter: the search string occurs
case-insensitively as a substring of the title, the description or the tags.
Stated from the spec, for comparison with `libSearchMatch`. -/
def specSearchMatch (search : String) (r : LibraryResource) : Bool :=
  specContainsCI r.title search || specContainsOpt r.description search ||
    specContainsOpt r.tags search

/-! Concrete sample data used by scenario theorems and witnesses -/

/-- The two question inputs of the spec's quiz scenario: 5 points with correct
option "A", 10 points with correct option "C" (submitted lowercase in the
creation form to exercise the uppercasing). -/
def sampleInputs : List QuestionInput :=
  [{ question_text := "Q1", option_a := "w", option_b := "x", option_c := "y",
     option_d := "z", correct := "a", points := 5 },
   { question_text := "Q2", option_a := "w", option_b := "x", option_c := "y",
     option_d := "z", correct := "c", points := 10 }]

/-- The question rows `create_quiz` stores for `sampleInputs`. -/
def sampleQuestions : List QuizQuestion :=
  [{ id := 1, question_text := "Q1", option_a := "w", option_b := "x",
     option_c := "y", option_d := "z", correct_option := "A", points := 5,
     quiz_id := 1 },
   { id := 2, question_text := "Q2", option_a := "w", option_b := "x",
     option_c := "y", option_d := "z", correct_option := "C", points := 10,
     quiz_id := 1 }]

/-- The scenario's submitted form: option "A" for question 1, "B" for
question 2. -/
def sampleForm : Nat → Option String :=
  fun n => if n = 1 then some "A" else if n = 2 then some "B" else none

/-- A sample essay whose `allows_file_upload` flag is off. -/
def sampleEssayNoUpload : Essay :=
  { id := 1, allows_file_upload := false, max_points := 100, course_id := 1 }

/-- A sample library resource; neither its title nor (absent) description or
tags contain a percent sign. -/
def sampleResource : LibraryResource :=
  { id := 1, title := "Cell Biology", description := none, tags := none,
    category := some "PDF" }

/-- The answer rows `take_quiz` adds: one per question with a truthy submitted
option. -/
def quizAnswerRows (subId : Nat) (form : Nat → Option String)
    (questions : List QuizQuestion) : List QuizAnswer :=
  questions.filterMap (fun q =>
    match form q.id with
    | none => none
    | some sel =>
      if sel.isEmpty then none
      else
        some { submission_id := subId, question_id := q.id,
               selected_option := upperAscii sel,
               points_earned := if upperAscii sel = q.correct_option then q.points else 0 })

/-! Enrollment request sequences (for the uniqueness invariant) -/

/-- The requests that touch the enrollments table. -/
inductive EnrollAction
  | request (student : User) (course : Course) (now newId : Nat)
  | approve (teacher : User) (eid now : Nat)
  | decline (teacher : User) (eid now : Nat)
  | adminApprove (eid now : Nat)
  | adminDecline (eid now : Nat)

/-- Sequential processing of one request against the enrollments table. -/
def enrollStep (courses : List Course) (enrollments : List Enrollment) :
    EnrollAction → List Enrollment
  | EnrollAction.request s c now nid => (request_enrollment s c now nid enrollments).1
  | EnrollAction.approve t eid now => (approve_enrollment t eid now courses enrollments).1
  | EnrollAction.decline t eid now => (decline_enrollment t eid now courses enrollments).1
  | EnrollAction.adminApprove eid now => (admin_approve_enrollment eid now enrollments).1
  | EnrollAction.adminDecline eid now => (admin_decline_enrollment eid now enrollments).1

/-- Number of enrollment rows for one (student, course) pair. -/
def pairCount (enrollments : List Enrollment) (sid cid : Nat) : Nat :=
  (enrollments.filter
    (fun e => decide (e.student_id = sid) && decide (e.course_id = cid))).length

/-- At most one enrollment row per (student, course) pair. -/
def uniquePerPair (enrollments : List Enrollment) : Prop :=
  ∀ sid cid, pairCount enrollments sid cid ≤ 1

/-- The first answer row of the sample submission. -/
def sampleAnswer : QuizAnswer :=
  { submission_id := 1, question_id := 1, selected_option := "A", points_earned := 5 }

/-- A sample declined enrollment row for student 1 in course 2. -/
def declinedRow : Enrollment :=
  { id := 1, status := EnrollmentStatus.declined, requested_at := 0,
    responded_at := some 1, student_id := 1, course_id := 2 }

/-! Claim theorems -/

/-- C9: `calculate_grade_percentage` is total on all integer inputs: with
`max_score = 0` it returns 0 without dividing, and the division branch is
taken exactly when `max_score` is nonzero. -/
theorem calculate_grade_percentage_total (score m : ℤ) :
    calculate_grade_percentage score 0 = 0 ∧
      (m ≠ 0 →
        calculate_grade_percentage score m = pyRound2 (((score : ℚ) / (m : ℚ)) * 100)) := by
  constructor
  · simp [calculate_grade_percentage]
  · intro hm
    simp [calculate_grade_percentage, hm]

/-- Witness for C9 at `score = 7`, `m = 3`. -/
theorem calculate_grade_percentage_total_witness :
    calculate_grade_percentage 7 0 = 0 ∧
      calculate_grade_percentage 7 3 = pyRound2 ((((7 : ℤ) : ℚ) / ((3 : ℤ) : ℚ)) * 100) :=
  ⟨(calculate_grade_percentage_total 7 3).1,
   (calculate_grade_percentage_total 7 3).2 (by decide)⟩

/-- C8: for a quiz created with two questions worth 5 and 10 points and
correct options "A" and "C", a student submitting "A" and "B" scores
`total_score = 5`, and the reported percentage
`round((5 / 15) * 100, 2)` is exactly `33.33`. -/
theorem quiz_two_question_scenario :
    create_quiz 1 1 1 "Cells" sampleInputs = some
      ({ id := 1, title := "Cells", total_points := 15, course_id := 1 },
       sampleQuestions) ∧
      (take_quiz 7 1 1 0 sampleQuestions sampleForm).1.total_score = 5 ∧
      calculate_grade_percentage 5 15 = 3333 / 100 := by
  refine ⟨?_, ?_, ?_⟩
  · decide
  · decide
  · norm_num [calculate_grade_percentage, pyRound2, roundHalfEven]

/-- C6: `submit_essay` rejects exactly the requests whose text is falsy and
for which no file was stored, creating no row and having saved no file in that
case, and otherwise creates exactly one submission row carrying the text and
the stored file reference. -/
theorem submit_essay_reject_iff (secureName : String → String) (essay : Essay)
    (studentId now : Nat) (text_content : Option String) (filePart : Option FilePart) :
    ((submit_essay secureName essay studentId now text_content filePart).row = none ↔
        (optStrFalsy text_content = true ∧
          essayUploadedFile secureName essay now filePart = none)) ∧
      (submit_essay secureName essay studentId now text_content filePart).savedFiles =
        (essayUploadedFile secureName essay now filePart).toList ∧
      ((submit_essay secureName essay studentId now text_content filePart).row = none →
        (submit_essay secureName essay studentId now text_content filePart).savedFiles = []) ∧
      ((submit_essay secureName essay studentId now text_content filePart).row ≠ none →
        (submit_essay secureName essay studentId now text_content filePart).row =
          some { student_id := studentId, essay_id := essay.id,
                 text_content := text_content,
                 uploaded_file := essayUploadedFile secureName essay now filePart }) := by
  cases htxt : optStrFalsy text_content <;>
    cases hup : essayUploadedFile secureName essay now filePart <;>
      simp [submit_essay, htxt, hup]

/-- Witness for C6: empty text and no file is rejected with nothing saved;
non-empty text alone creates exactly one row. -/
theorem submit_essay_reject_iff_witness :
    ((submit_essay id sampleEssayNoUpload 7 0 (some "") none).row = none ↔
      (optStrFalsy (some "") = true ∧
        essayUploadedFile id sampleEssayNoUpload 0 none = none)) ∧
    (submit_essay id sampleEssayNoUpload 7 0 (some "an answer") none).row ≠ none ∧
    (submit_essay id sampleEssayNoUpload 7 0 (some "an answer") none).row =
      some { student_id := 7, essay_id := sampleEssayNoUpload.id,
             text_content := some "an answer",
             uploaded_file := essayUploadedFile id sampleEssayNoUpload 0 none } :=
  ⟨(submit_essay_reject_iff id sampleEssayNoUpload 7 0 (some "") none).1,
   by decide,
   (submit_essay_reject_iff id sampleEssayNoUpload 7 0 (some "an answer") none).2.2.2
     (by decide)⟩

/-- C10: when the essay's `allows_file_upload` flag is off, no file is ever
stored and any created row has an empty `uploaded_file`; hence a request
carrying only a file and no text is rejected as empty. -/
theorem submit_essay_upload_disallowed (secureName : String → String) (essay : Essay)
    (studentId now : Nat) (text_content : Option String) (filePart : Option FilePart)
    (hno : essay.allows_file_upload = false) :
    essayUploadedFile secureName essay now filePart = none ∧
      (submit_essay secureName essay studentId now text_content filePart).savedFiles = [] ∧
      (∀ row, (submit_essay secureName essay studentId now text_content filePart).row =
          some row → row.uploaded_file = none) ∧
      (optStrFalsy text_content = true →
        (submit_essay secureName essay studentId now text_content filePart).row = none) := by
  have hup : essayUploadedFile secureName essay now filePart = none := by
    simp [essayUploadedFile, hno]
  refine ⟨hup, ?_, ?_, ?_⟩
  · cases htxt : optStrFalsy text_content <;> simp [submit_essay, hup, htxt]
  · intro row hrow
    cases htxt : optStrFalsy text_content
    · simp [submit_essay, hup, htxt] at hrow
      simp [← hrow]
    · simp [submit_essay, hup, htxt] at hrow
  · intro htxt
    simp [submit_essay, hup, htxt]

/-- Witness for C10: an upload-disallowed essay, a file-only request
(valid pdf filename) is rejected with nothing stored. -/
theorem submit_essay_upload_disallowed_witness :
    essayUploadedFile id sampleEssayNoUpload 0 (some { filename := "notes.pdf" }) = none ∧
      (submit_essay id sampleEssayNoUpload 7 0 none
        (some { filename := "notes.pdf" })).savedFiles = [] ∧
      (submit_essay id sampleEssayNoUpload 7 0 none
        (some { filename := "notes.pdf" })).row = none := by
  have h := submit_essay_upload_disallowed id sampleEssayNoUpload 7 0 none
    (some { filename := "notes.pdf" }) rfl
  exact ⟨h.1, h.2.1, h.2.2.2 (by decide)⟩

/-- The empty character sequence occurs in every character list. -/
theorem listContainsSeq_nil (l : List Char) : listContainsSeq [] l = true := by
  cases l
  · rfl
  · rfl

/-- One-step equations of the matcher at a `%` pattern head. -/
theorem likeMatchFuel_percent_nil (fuel : Nat) (ps : List Char) :
    likeMatchFuel (fuel + 1) ('%' :: ps) [] = likeMatchFuel fuel ps [] := rfl

/-- One-step equation of the matcher at a `%` head on a nonempty string. -/
theorem likeMatchFuel_percent_cons (fuel : Nat) (ps : List Char) (c : Char)
    (s2 : List Char) :
    likeMatchFuel (fuel + 1) ('%' :: ps) (c :: s2) =
      (likeMatchFuel fuel ps (c :: s2) || likeMatchFuel fuel ('%' :: ps) s2) := rfl

/-- A non-`%` pattern head never matches the empty string. -/
theorem likeMatchFuel_lit_nil (fuel : Nat) (q : Char) (ps : List Char)
    (hq : q ≠ '%') : likeMatchFuel (fuel + 1) (q :: ps) [] = false := by
  simp [likeMatchFuel, hq]

/-- One-step equation of the matcher at a non-`%` pattern head on a nonempty
string. -/
theorem likeMatchFuel_lit_cons (fuel : Nat) (q : Char) (ps : List Char)
    (c : Char) (s2 : List Char) (hq : q ≠ '%') :
    likeMatchFuel (fuel + 1) (q :: ps) (c :: s2) =
      ((if q = '_' then true else decide (q.toLower = c.toLower)) &&
        likeMatchFuel fuel ps s2) := by
  simp [likeMatchFuel, hq]

/-- The matcher is insensitive to the exact amount of fuel, provided there is
enough of it. -/
theorem likeMatchFuel_mono (f1 : Nat) : ∀ (f2 : Nat) (p s : List Char),
    p.length + s.length < f1 → f1 ≤ f2 →
    likeMatchFuel f1 p s = likeMatchFuel f2 p s := by
  induction f1 with
  | zero =>
    intro f2 p s h1
    exact absurd h1 (Nat.not_lt_zero _)
  | succ f ih =>
    intro f2 p s h1 h2
    cases f2 with
    | zero => omega
    | succ g =>
      have hfg : f ≤ g := by omega
      cases p with
      | nil => simp [likeMatchFuel]
      | cons q ps =>
        simp only [List.length_cons] at h1
        by_cases hq : q = '%'
        · subst hq
          cases s with
          | nil =>
            rw [likeMatchFuel_percent_nil, likeMatchFuel_percent_nil,
              ih g ps [] (by simp only [List.length_nil] at h1 ⊢; omega) hfg]
          | cons c s2 =>
            simp only [List.length_cons] at h1
            rw [likeMatchFuel_percent_cons, likeMatchFuel_percent_cons,
              ih g ps (c :: s2) (by simp only [List.length_cons]; omega) hfg,
              ih g ('%' :: ps) s2 (by simp only [List.length_cons]; omega) hfg]
        · cases s with
          | nil =>
            rw [likeMatchFuel_lit_nil f q ps hq, likeMatchFuel_lit_nil g q ps hq]
          | cons c s2 =>
            simp only [List.length_cons] at h1
            rw [likeMatchFuel_lit_cons f q ps c s2 hq,
              likeMatchFuel_lit_cons g q ps c s2 hq,
              ih g ps s2 (by omega) hfg]

/-- A lone `%` matches any string. -/
theorem likeMatchFuel_percent (s : List Char) : ∀ (fuel : Nat),
    s.length + 1 < fuel → likeMatchFuel fuel ['%'] s = true := by
  induction s with
  | nil =>
    intro fuel h
    cases fuel with
    | zero => omega
    | succ f =>
      cases f with
      | zero => simp at h
      | succ f2 => simp [likeMatchFuel]
  | cons c s2 ih =>
    intro fuel h
    cases fuel with
    | zero => omega
    | succ f =>
      simp only [List.length_cons] at h
      rw [likeMatchFuel_percent_cons, ih f (by omega)]
      simp

/-- Matching a wildcard-free pattern followed by `%` is a case-insensitive
prefix test. -/
theorem likeMatchFuel_startsWith (needle : List Char) :
    ('%' ∉ needle ∧ '_' ∉ needle) →
    ∀ (fuel : Nat) (s : List Char), needle.length + 1 + s.length < fuel →
    (likeMatchFuel fuel (needle ++ ['%']) s = true ↔
      (needle.map Char.toLower).isPrefixOf (s.map Char.toLower) = true) := by
  induction needle with
  | nil =>
    intro hw fuel s h
    simp only [List.nil_append, List.map_nil]
    rw [likeMatchFuel_percent s fuel (by simp only [List.length_nil] at h; omega)]
    simp [List.isPrefixOf]
  | cons q ps ih =>
    intro hw fuel s h
    have hq : q ≠ '%' := fun hh => hw.1 (by simp [hh])
    have hq2 : q ≠ '_' := fun hh => hw.2 (by simp [hh])
    have hw2 : '%' ∉ ps ∧ '_' ∉ ps :=
      ⟨fun hh => hw.1 (List.mem_cons_of_mem _ hh),
       fun hh => hw.2 (List.mem_cons_of_mem _ hh)⟩
    cases fuel with
    | zero => omega
    | succ f =>
      simp only [List.length_cons] at h
      cases s with
      | nil =>
        simp only [List.cons_append]
        rw [likeMatchFuel_lit_nil f q (ps ++ ['%']) hq]
        simp [List.isPrefixOf]
      | cons c s2 =>
        simp only [List.length_cons] at h
        simp only [List.cons_append, List.map_cons]
        rw [likeMatchFuel_lit_cons f q (ps ++ ['%']) c s2 hq, if_neg hq2]
        rw [show ((q.toLower :: ps.map Char.toLower).isPrefixOf
            (c.toLower :: s2.map Char.toLower)) =
          ((q.toLower == c.toLower) &&
            (ps.map Char.toLower).isPrefixOf (s2.map Char.toLower)) from rfl]
        simp only [Bool.and_eq_true, decide_eq_true_eq, beq_iff_eq]
        rw [ih hw2 f s2 (by omega)]

/-- Matching `'%needle%'` for a wildcard-free needle is exactly
case-insensitive substring containment. -/
theorem likeMatchFuel_contains (needle : List Char)
    (hw : '%' ∉ needle ∧ '_' ∉ needle) :
    ∀ (s : List Char) (fuel : Nat), needle.length + 2 + s.length < fuel →
    (likeMatchFuel fuel ('%' :: (needle ++ ['%'])) s = true ↔
      listContainsSeq (needle.map Char.toLower) (s.map Char.toLower) = true) := by
  intro s
  induction s with
  | nil =>
    intro fuel h
    cases fuel with
    | zero => omega
    | succ f =>
      rw [likeMatchFuel_percent_nil,
        likeMatchFuel_startsWith needle hw f []
          (by simp only [List.length_nil] at h ⊢; omega)]
      cases needle <;> simp [listContainsSeq, List.isPrefixOf]
  | cons c s2 ih =>
    intro fuel h
    cases fuel with
    | zero => omega
    | succ f =>
      simp only [List.length_cons] at h
      rw [likeMatchFuel_percent_cons]
      have h1 := likeMatchFuel_startsWith needle hw f (c :: s2)
        (by simp only [List.length_cons]; omega)
      have h2 := ih f (by omega)
      rw [show listContainsSeq (needle.map Char.toLower)
          ((c :: s2).map Char.toLower) =
        ((needle.map Char.toLower).isPrefixOf ((c :: s2).map Char.toLower) ||
          listContainsSeq (needle.map Char.toLower) (s2.map Char.toLower))
          from rfl]
      simp only [Bool.or_eq_true]
      rw [h1, h2]

/-- On wildcard-free search strings the code's `LIKE` containment is exactly
the spec's case-insensitive substring containment. -/
theorem likeContains_eq_specContainsCI (haystack needle : String)
    (hw : noWildcards needle) :
    likeContains haystack needle = specContainsCI haystack needle := by
  have hiff := likeMatchFuel_contains needle.toList hw haystack.toList
    (needle.toList.length + 2 + haystack.toList.length + 1) (by omega)
  have h1 : likeContains haystack needle =
      likeMatchFuel (needle.toList.length + 2 + haystack.toList.length + 1)
        ('%' :: (needle.toList ++ ['%'])) haystack.toList := by
    unfold likeContains likeMatch
    congr 1
    simp only [List.length_cons, List.length_append, List.length_nil]
  have h2 : specContainsCI haystack needle =
      listContainsSeq (needle.toList.map Char.toLower)
        (haystack.toList.map Char.toLower) := rfl
  rw [h1, h2, Bool.eq_iff_iff]
  exact hiff

/-- Every string `LIKE`-contains the empty search string. -/
theorem likeContains_empty (h : String) : likeContains h "" = true := by
  have heq := likeContains_eq_specContainsCI h ""
    ⟨List.not_mem_nil _, List.not_mem_nil _⟩
  rw [heq]
  unfold specContainsCI
  rw [show (lowerAscii "").toList = [] from rfl]
  exact listContainsSeq_nil _

/-- A row always matches the empty search string. -/
theorem libSearchMatch_empty (r : LibraryResource) : libSearchMatch "" r = true := by
  simp [libSearchMatch, likeContains_empty]

/-- C7 counterexample: the search string `%` is interpreted by the `LIKE`
query as a wildcard, so a resource whose title, description and tags do not
contain `%` at all is nevertheless returned. -/
theorem library_index_substring_counterexample :
    library_index "%" "" [sampleResource] = [sampleResource] ∧
      specSearchMatch "%" sampleResource = false := by
  constructor
  · decide
  · decide

/-- C7 (amended): `library_index` returns exactly the resources one of whose
`title`, `description` or `tags` matches the search string under SQL
`LIKE '%search%'` semantics (ASCII-case-insensitive, `%` and `_` acting as
wildcards because SQLAlchemy's `contains` does not escape them), restricted to
exact category equality when a non-empty category is given; for search strings
free of wildcards the `LIKE` match is exactly the spec's case-insensitive
substring containment; with an empty search and no category every resource is
returned. -/
theorem library_index_spec (search category : String) (resources : List LibraryResource) :
    (∀ r, r ∈ library_index search category resources ↔
        r ∈ resources ∧ libSearchMatch search r = true ∧
          (category = "" ∨ r.category = some category)) ∧
      (noWildcards search →
        ∀ r : LibraryResource, libSearchMatch search r = specSearchMatch search r) ∧
      library_index "" "" resources = resources := by
  have h0 : ("" : String).isEmpty = true := rfl
  refine ⟨?_, ?_, ?_⟩
  · intro r
    cases hs : search.isEmpty <;> cases hc : category.isEmpty
    · have hcne : ¬category = "" := fun h => by rw [h, h0] at hc; cases hc
      simp only [library_index, hs, hc, Bool.not_false, if_true, List.mem_filter,
        decide_eq_true_eq, hcne, false_or]
      tauto
    · have hceq : category = "" := (String.isEmpty_iff category).mp hc
      subst hceq
      simp [library_index, hs, hc, List.mem_filter]
    · have hseq : search = "" := (String.isEmpty_iff search).mp hs
      subst hseq
      have hcne : ¬category = "" := fun h => by rw [h, h0] at hc; cases hc
      simp [library_index, hs, hc, List.mem_filter, hcne, libSearchMatch_empty]
    · have hseq : search = "" := (String.isEmpty_iff search).mp hs
      have hceq : category = "" := (String.isEmpty_iff category).mp hc
      subst hseq; subst hceq
      simp [library_index, h0, libSearchMatch_empty]
  · intro hw r
    unfold libSearchMatch specSearchMatch
    cases hd : r.description <;> cases ht : r.tags <;>
      simp [likeContainsOpt, specContainsOpt,
        likeContains_eq_specContainsCI _ search hw]
  · simp [library_index, h0]

/-- Witness for C7 (amended) at the wildcard-free search "bio". -/
theorem library_index_spec_witness :
    (sampleResource ∈ library_index "bio" "" [sampleResource] ↔
        sampleResource ∈ [sampleResource] ∧
          libSearchMatch "bio" sampleResource = true ∧
          (("" : String) = "" ∨ sampleResource.category = some "")) ∧
      libSearchMatch "bio" sampleResource = specSearchMatch "bio" sampleResource ∧
      library_index "" "" [sampleResource] = [sampleResource] :=
  ⟨(library_index_spec "bio" "" [sampleResource]).1 sampleResource,
   (library_index_spec "bio" "" [sampleResource]).2.1
     (by constructor <;> decide) sampleResource,
   (library_index_spec "bio" "" [sampleResource]).2.2⟩

/-- Behavior of `can_access_course` for a teacher: ownership of an existing course. -/
theorem can_access_course_teacher (u : User) (hu : u.user_type = UserType.teacher)
    (course_id : Nat) (courses : List Course) (enrollments : List Enrollment)
    (hids : (courses.map Course.id).Nodup) :
    u.can_access_course course_id courses enrollments = true ↔
      ∃ c ∈ courses, c.id = course_id ∧ c.teacher_id = some u.id := by
  have ht : u.is_teacher = true := by simp [User.is_teacher, hu]
  unfold User.can_access_course
  rw [ht]
  cases hfind : courses.find? (fun c => decide (c.id = course_id))
  case none =>
    rw [List.find?_eq_none] at hfind
    simp only [decide_eq_true_eq] at hfind
    simp only [if_true]
    constructor
    · intro h
      cases h
    · rintro ⟨c, hc, hcid, -⟩
      exact absurd hcid (hfind c hc)
  case some c =>
    have hmem : c ∈ courses := List.mem_of_find?_eq_some hfind
    have hcid : c.id = course_id := by simpa using List.find?_some hfind
    simp only [if_true, decide_eq_true_eq]
    constructor
    · intro hteach
      exact ⟨c, hmem, hcid, hteach⟩
    · rintro ⟨c2, hc2, hc2id, hc2t⟩
      have heq : c = c2 := List.inj_on_of_nodup_map hids hmem hc2 (by rw [hcid, hc2id])
      rw [heq]
      exact hc2t

/-- Behavior of `can_access_course` for a student: an approved enrollment row exists. -/
theorem can_access_course_student (u : User) (hu : u.user_type = UserType.student)
    (course_id : Nat) (courses : List Course) (enrollments : List Enrollment) :
    u.can_access_course course_id courses enrollments = true ↔
      ∃ e ∈ enrollments, e.student_id = u.id ∧ e.course_id = course_id ∧
        e.status = EnrollmentStatus.approved := by
  have ht : u.is_teacher = false := by simp [User.is_teacher, hu]
  have hs : u.is_student = true := by simp [User.is_student, hu]
  simp [User.can_access_course, ht, hs, List.find?_isSome, and_assoc]

/-- C5: `can_access_course` is true for a teacher exactly when the course
exists and is owned by them, true for a student exactly when an approved
enrollment row exists for the pair, and false for everyone else, admins
included (assuming distinct course ids, as for database primary keys). -/
theorem can_access_course_spec (u : User) (course_id : Nat)
    (courses : List Course) (enrollments : List Enrollment)
    (hids : (courses.map Course.id).Nodup) :
    (u.can_access_course course_id courses enrollments = true ↔
        ((u.user_type = UserType.teacher ∧
            ∃ c ∈ courses, c.id = course_id ∧ c.teacher_id = some u.id) ∨
          (u.user_type = UserType.student ∧
            ∃ e ∈ enrollments, e.student_id = u.id ∧ e.course_id = course_id ∧
              e.status = EnrollmentStatus.approved))) ∧
      (u.user_type = UserType.admin →
        u.can_access_course course_id courses enrollments = false) := by
  constructor
  · cases hu : u.user_type
    case admin =>
      simp [User.can_access_course, User.is_teacher, User.is_student, hu]
    case teacher =>
      rw [can_access_course_teacher u hu course_id courses enrollments hids]
      simp [hu]
    case student =>
      rw [can_access_course_student u hu course_id courses enrollments]
      simp [hu]
  · intro hu
    simp [User.can_access_course, User.is_teacher, User.is_student, hu]

/-- Witness for C5: a teacher sees their own course, an admin is refused. -/
theorem can_access_course_spec_witness :
    (User.can_access_course { id := 3, user_type := UserType.teacher, has_paid := false } 2
        [{ id := 2, max_students := 50, teacher_id := some 3 }] [] = true ↔
      (((UserType.teacher = UserType.teacher ∧
          ∃ c ∈ [({ id := 2, max_students := 50, teacher_id := some 3 } : Course)],
            c.id = 2 ∧ c.teacher_id = some 3) ∨
        (UserType.teacher = UserType.student ∧
          ∃ e ∈ ([] : List Enrollment), e.student_id = 3 ∧ e.course_id = 2 ∧
            e.status = EnrollmentStatus.approved)))) ∧
      User.can_access_course { id := 4, user_type := UserType.admin, has_paid := false } 2
        [{ id := 2, max_students := 50, teacher_id := some 3 }] [] = false :=
  ⟨(can_access_course_spec { id := 3, user_type := UserType.teacher, has_paid := false } 2
      [{ id := 2, max_students := 50, teacher_id := some 3 }] [] (by decide)).1,
   (can_access_course_spec { id := 4, user_type := UserType.admin, has_paid := false } 2
      [{ id := 2, max_students := 50, teacher_id := some 3 }] [] (by decide)).2 rfl⟩

/-- C2: `request_enrollment` creates a new pending row exactly when the
student has paid, no enrollment row exists for the (student, course) pair and
the approved-row count is below the course's capacity; in every other case the
enrollment table is unchanged and a non-`created` outcome is reported. -/
theorem request_enrollment_spec (student : User) (course : Course) (now newId : Nat)
    (enrollments : List Enrollment) :
    ((request_enrollment student course now newId enrollments).2 =
        RequestOutcome.created ↔
      (student.has_paid = true ∧
        (¬∃ e ∈ enrollments, e.student_id = student.id ∧ e.course_id = course.id) ∧
        ((course.enrolled_count enrollments : Int) < course.max_students))) ∧
      ((request_enrollment student course now newId enrollments).2 =
          RequestOutcome.created →
        (request_enrollment student course now newId enrollments).1 =
          enrollments ++
            [{ id := newId, status := EnrollmentStatus.pending, requested_at := now,
               responded_at := none, student_id := student.id,
               course_id := course.id }]) ∧
      ((request_enrollment student course now newId enrollments).2 ≠
          RequestOutcome.created →
        (request_enrollment student course now newId enrollments).1 = enrollments) := by
  cases hpaid : student.has_paid
  · simp [request_enrollment, hpaid]
  · cases hfind : enrollments.find?
        (fun e => decide (e.student_id = student.id) && decide (e.course_id = course.id))
    case some e =>
      have hmem : e ∈ enrollments := List.mem_of_find?_eq_some hfind
      have hpred := List.find?_some hfind
      simp only [Bool.and_eq_true, decide_eq_true_eq] at hpred
      refine ⟨?_, ?_, ?_⟩
      · simp only [request_enrollment, hpaid, hfind]
        constructor
        · intro h
          cases h
        · rintro ⟨-, hno, -⟩
          exact absurd ⟨e, hmem, hpred.1, hpred.2⟩ hno
      · intro h
        simp [request_enrollment, hpaid, hfind] at h
      · intro h
        simp [request_enrollment, hpaid, hfind]
    case none =>
      rw [List.find?_eq_none] at hfind
      simp only [Bool.and_eq_true, decide_eq_true_eq] at hfind
      have hno : ¬∃ e ∈ enrollments, e.student_id = student.id ∧ e.course_id = course.id := by
        rintro ⟨e, hmem, h1, h2⟩
        exact hfind e hmem ⟨h1, h2⟩
      have hfind2 : enrollments.find?
          (fun e => decide (e.student_id = student.id) && decide (e.course_id = course.id)) =
          none := by
        rw [List.find?_eq_none]
        intro e hmem hpred
        simp only [Bool.and_eq_true, decide_eq_true_eq] at hpred
        exact hfind e hmem hpred
      cases hfull : course.is_full enrollments
      · have hlt : (course.enrolled_count enrollments : Int) < course.max_students := by
          have := hfull
          simp only [Course.is_full, decide_eq_false_iff_not, not_le] at this
          exact this
        simp [request_enrollment, hpaid, hfind2, hfull, hno, hlt]
      · have hge : ¬((course.enrolled_count enrollments : Int) < course.max_students) := by
          have := hfull
          simp only [Course.is_full, decide_eq_true_eq] at this
          exact not_lt.mpr this
        simp [request_enrollment, hpaid, hfind2, hfull, hge]

/-- Witness for C2: a paid student, an empty enrollment table and an
uncontested course yield a created pending row. -/
theorem request_enrollment_spec_witness :
    (request_enrollment { id := 1, user_type := UserType.student, has_paid := true }
        { id := 2, max_students := 50, teacher_id := none } 0 1 []).2 =
      RequestOutcome.created ∧
    (request_enrollment { id := 1, user_type := UserType.student, has_paid := true }
        { id := 2, max_students := 50, teacher_id := none } 0 1 []).1 =
      [{ id := 1, status := EnrollmentStatus.pending, requested_at := 0,
         responded_at := none, student_id := 1, course_id := 2 }] := by
  have h := request_enrollment_spec
    { id := 1, user_type := UserType.student, has_paid := true }
    { id := 2, max_students := 50, teacher_id := none } 0 1 []
  have hcreated := h.1.mpr (by refine ⟨rfl, ?_, ?_⟩ <;> decide)
  exact ⟨hcreated, h.2.1 hcreated⟩

/-- C4: for any enrollment row present in the table, whatever its current
status, the teacher approve/decline routes (under ownership) and the admin
override routes succeed, rewriting exactly the row's `status` and
`responded_at` and leaving `student_id`, `course_id` and `requested_at` of
every row unchanged; no route inspects or rejects an already-resolved row. -/
theorem respond_routes_frame (teacher : User) (eid now : Nat)
    (courses : List Course) (enrollments : List Enrollment) (e0 : Enrollment) (c0 : Course)
    (hfind : enrollments.find? (fun e => decide (e.id = eid)) = some e0)
    (hcourse : courses.find? (fun c => decide (c.id = e0.course_id)) = some c0)
    (hown : c0.teacher_id = some teacher.id) :
    approve_enrollment teacher eid now courses enrollments =
        (enrollments.map (approveUpd eid now), RespondOutcome.ok) ∧
      decline_enrollment teacher eid now courses enrollments =
        (enrollments.map (declineUpd eid now), RespondOutcome.ok) ∧
      admin_approve_enrollment eid now enrollments =
        (enrollments.map (approveUpd eid now), RespondOutcome.ok) ∧
      admin_decline_enrollment eid now enrollments =
        (enrollments.map (declineUpd eid now), RespondOutcome.ok) ∧
      (∀ e : Enrollment,
        (approveUpd eid now e).student_id = e.student_id ∧
        (approveUpd eid now e).course_id = e.course_id ∧
        (approveUpd eid now e).requested_at = e.requested_at ∧
        (declineUpd eid now e).student_id = e.student_id ∧
        (declineUpd eid now e).course_id = e.course_id ∧
        (declineUpd eid now e).requested_at = e.requested_at ∧
        (e.id = eid →
          (approveUpd eid now e).status = EnrollmentStatus.approved ∧
          (approveUpd eid now e).responded_at = some now ∧
          (declineUpd eid now e).status = EnrollmentStatus.declined ∧
          (declineUpd eid now e).responded_at = some now)) := by
  refine ⟨?_, ?_, ?_, ?_, ?_⟩
  · simp [approve_enrollment, hfind, hcourse, hown]
  · simp [decline_enrollment, hfind, hcourse, hown]
  · simp [admin_approve_enrollment, hfind]
  · simp [admin_decline_enrollment, hfind]
  · intro e
    by_cases he : e.id = eid <;> simp [approveUpd, declineUpd, he]

/-- Witness for C4: a row that is already approved is re-approved (and
declined) without rejection, with only `status` and `responded_at` rewritten. -/
theorem respond_routes_frame_witness :
    approve_enrollment { id := 3, user_type := UserType.teacher, has_paid := false } 1 4
        [{ id := 2, max_students := 50, teacher_id := some 3 }]
        [{ id := 1, status := EnrollmentStatus.approved, requested_at := 0,
           responded_at := some 2, student_id := 9, course_id := 2 }] =
      ([{ id := 1, status := EnrollmentStatus.approved, requested_at := 0,
          responded_at := some 2, student_id := 9, course_id := 2 }].map (approveUpd 1 4),
       RespondOutcome.ok) ∧
    admin_decline_enrollment 1 4
        [{ id := 1, status := EnrollmentStatus.approved, requested_at := 0,
           responded_at := some 2, student_id := 9, course_id := 2 }] =
      ([{ id := 1, status := EnrollmentStatus.approved, requested_at := 0,
          responded_at := some 2, student_id := 9, course_id := 2 }].map (declineUpd 1 4),
       RespondOutcome.ok) := by
  have h := respond_routes_frame { id := 3, user_type := UserType.teacher, has_paid := false }
    1 4 [{ id := 2, max_students := 50, teacher_id := some 3 }]
    [{ id := 1, status := EnrollmentStatus.approved, requested_at := 0,
       responded_at := some 2, student_id := 9, course_id := 2 }]
    { id := 1, status := EnrollmentStatus.approved, requested_at := 0,
      responded_at := some 2, student_id := 9, course_id := 2 }
    { id := 2, max_students := 50, teacher_id := some 3 } (by decide) (by decide) rfl
  exact ⟨h.1, h.2.2.2.1⟩

/-- Unrolling the `take_quiz` answer loop: the accumulator collects the summed
per-question scores and the answer rows. -/
theorem takeQuiz_foldl_spec (subId : Nat) (form : Nat → Option String)
    (questions : List QuizQuestion) (acc : Int × List QuizAnswer) :
    (questions.foldl (takeQuizStep subId form) acc).1 =
        acc.1 + (questions.map (questionScore form)).sum ∧
      (questions.foldl (takeQuizStep subId form) acc).2 =
        acc.2 ++ quizAnswerRows subId form questions := by
  induction questions generalizing acc with
  | nil => simp [quizAnswerRows]
  | cons q qs ih =>
    cases hform : form q.id
    case none =>
      have hstep : takeQuizStep subId form acc q = acc := by
        simp [takeQuizStep, hform]
      simp only [List.foldl_cons, hstep]
      rcases ih acc with ⟨ih1, ih2⟩
      refine ⟨?_, ?_⟩
      · rw [ih1]
        simp [questionScore, hform]
      · rw [ih2]
        simp [quizAnswerRows, hform]
    case some sel =>
      cases hsel : sel.isEmpty
      case true =>
        have hstep : takeQuizStep subId form acc q = acc := by
          simp [takeQuizStep, hform, hsel]
        simp only [List.foldl_cons, hstep]
        rcases ih acc with ⟨ih1, ih2⟩
        refine ⟨?_, ?_⟩
        · rw [ih1]
          simp [questionScore, hform, hsel]
        · rw [ih2]
          simp [quizAnswerRows, hform, hsel]
      case false =>
        have hstep : takeQuizStep subId form acc q =
            (acc.1 + (if upperAscii sel = q.correct_option then q.points else 0),
             acc.2 ++ [{ submission_id := subId, question_id := q.id,
                         selected_option := upperAscii sel,
                         points_earned :=
                           if upperAscii sel = q.correct_option then q.points else 0 }]) := by
          simp [takeQuizStep, hform, hsel]
        simp only [List.foldl_cons, hstep]
        rcases ih (acc.1 + (if upperAscii sel = q.correct_option then q.points else 0),
          acc.2 ++ [{ submission_id := subId, question_id := q.id,
                      selected_option := upperAscii sel,
                      points_earned :=
                        if upperAscii sel = q.correct_option then q.points else 0 }]) with
          ⟨ih1, ih2⟩
        refine ⟨?_, ?_⟩
        · rw [ih1]
          simp [questionScore, hform, hsel]
          ring
        · rw [ih2]
          simp [quizAnswerRows, hform, hsel]

/-- The points recorded on the answer rows sum to the per-question scores
(unanswered questions score 0 and add no row). -/
theorem quizAnswerRows_points_sum (subId : Nat) (form : Nat → Option String)
    (questions : List QuizQuestion) :
    ((quizAnswerRows subId form questions).map QuizAnswer.points_earned).sum =
      (questions.map (questionScore form)).sum := by
  induction questions with
  | nil => simp [quizAnswerRows]
  | cons q qs ih =>
    simp only [quizAnswerRows, List.filterMap_cons] at ih ⊢
    cases hform : form q.id
    case none => simp [questionScore, hform, ih]
    case some sel =>
      cases hsel : sel.isEmpty
      case true => simp [questionScore, hform, hsel, ih]
      case false => simp [questionScore, hform, hsel, ih]

/-- C1: the submission `take_quiz` persists carries a `total_score` equal to
the sum of its answer rows' `points_earned`, which is the sum over all of the
quiz's questions of `points` when the submitted option uppercased equals the
stored `correct_option` and 0 otherwise; every answer row comes from a
question with a truthy submitted option (an unanswered question adds no row). -/
theorem take_quiz_total_score_spec (studentId quizId subId now : Nat)
    (questions : List QuizQuestion) (form : Nat → Option String) :
    (take_quiz studentId quizId subId now questions form).1.total_score =
        (((take_quiz studentId quizId subId now questions form).2.map
          QuizAnswer.points_earned).sum) ∧
      (take_quiz studentId quizId subId now questions form).1.total_score =
        (questions.map (questionScore form)).sum ∧
      (∀ a ∈ (take_quiz studentId quizId subId now questions form).2,
        ∃ sel, form a.question_id = some sel ∧ sel.isEmpty = false) := by
  have hfold := takeQuiz_foldl_spec subId form questions (0, [])
  have h1 : (take_quiz studentId quizId subId now questions form).1.total_score =
      (questions.map (questionScore form)).sum := by
    simp only [take_quiz]
    rw [hfold.1]
    ring
  have h2 : (take_quiz studentId quizId subId now questions form).2 =
      quizAnswerRows subId form questions := by
    simp only [take_quiz]
    rw [hfold.2]
    simp
  refine ⟨?_, h1, ?_⟩
  · rw [h1, h2, quizAnswerRows_points_sum]
  · intro a ha
    rw [h2] at ha
    rw [quizAnswerRows, List.mem_filterMap] at ha
    rcases ha with ⟨q, -, hq⟩
    cases hform : form q.id
    case none => rw [hform] at hq; cases hq
    case some sel =>
      rw [hform] at hq
      simp only at hq
      cases hsel : sel.isEmpty
      case true => rw [hsel] at hq; simp at hq
      case false =>
        rw [hsel] at hq
        simp only [Bool.false_eq_true, if_false, Option.some.injEq] at hq
        refine ⟨sel, ?_, hsel⟩
        rw [← hq]
        exact hform

/-- Witness for C1 on the sample quiz: score 5 = 5 + 0, and the first answer
row's question received the truthy option "A". -/
theorem take_quiz_total_score_spec_witness :
    (take_quiz 7 1 1 0 sampleQuestions sampleForm).1.total_score =
        (((take_quiz 7 1 1 0 sampleQuestions sampleForm).2.map
          QuizAnswer.points_earned).sum) ∧
      (take_quiz 7 1 1 0 sampleQuestions sampleForm).1.total_score =
        (sampleQuestions.map (questionScore sampleForm)).sum ∧
      (∃ sel, sampleForm sampleAnswer.question_id = some sel ∧ sel.isEmpty = false) :=
  ⟨(take_quiz_total_score_spec 7 1 1 0 sampleQuestions sampleForm).1,
   (take_quiz_total_score_spec 7 1 1 0 sampleQuestions sampleForm).2.1,
   (take_quiz_total_score_spec 7 1 1 0 sampleQuestions sampleForm).2.2
     sampleAnswer (by decide)⟩

/-- An update that touches neither `student_id` nor `course_id` preserves
every pair count. -/
theorem pairCount_map (f : Enrollment → Enrollment)
    (hf : ∀ e, (f e).student_id = e.student_id ∧ (f e).course_id = e.course_id)
    (enrollments : List Enrollment) (sid cid : Nat) :
    pairCount (enrollments.map f) sid cid = pairCount enrollments sid cid := by
  unfold pairCount
  rw [List.filter_map, List.length_map]
  congr 1
  apply List.filter_congr
  intro e he
  rcases hf e with ⟨h1, h2⟩
  simp [Function.comp, h1, h2]

/-- Route `request_enrollment` preserves the uniqueness invariant. -/
theorem request_enrollment_uniquePerPair (student : User) (course : Course)
    (now newId : Nat) (enrollments : List Enrollment)
    (h : uniquePerPair enrollments) :
    uniquePerPair (request_enrollment student course now newId enrollments).1 := by
  cases hpaid : student.has_paid
  · simpa [request_enrollment, hpaid] using h
  · cases hfind : enrollments.find?
        (fun e => decide (e.student_id = student.id) && decide (e.course_id = course.id))
    case some e =>
      simpa [request_enrollment, hpaid, hfind] using h
    case none =>
      cases hfull : course.is_full enrollments
      case true =>
        simpa [request_enrollment, hpaid, hfind, hfull] using h
      case false =>
        rw [List.find?_eq_none] at hfind
        simp only [Bool.and_eq_true, decide_eq_true_eq] at hfind
        intro sid cid
        have hres : (request_enrollment student course now newId enrollments).1 =
            enrollments ++
              [{ id := newId, status := EnrollmentStatus.pending, requested_at := now,
                 responded_at := none, student_id := student.id,
                 course_id := course.id }] := by
          have hfind2 : enrollments.find?
              (fun e => decide (e.student_id = student.id) &&
                decide (e.course_id = course.id)) = none := by
            rw [List.find?_eq_none]
            intro e hmem hpred
            simp only [Bool.and_eq_true, decide_eq_true_eq] at hpred
            exact hfind e hmem hpred
          simp [request_enrollment, hpaid, hfind2, hfull]
        rw [hres]
        unfold pairCount
        rw [List.filter_append, List.length_append]
        by_cases hpair : sid = student.id ∧ cid = course.id
        · have hzero : (enrollments.filter
              (fun e => decide (e.student_id = sid) && decide (e.course_id = cid))).length
              = 0 := by
            rw [List.length_eq_zero, List.filter_eq_nil_iff]
            intro e hmem hpred
            simp only [Bool.and_eq_true, decide_eq_true_eq] at hpred
            exact hfind e hmem (by rw [← hpair.1, ← hpair.2]; exact hpred)
          rw [hzero]
          have hle := List.length_filter_le
            (fun e => decide (e.student_id = sid) && decide (e.course_id = cid))
            [({ id := newId, status := EnrollmentStatus.pending, requested_at := now,
                responded_at := none, student_id := student.id,
                course_id := course.id } : Enrollment)]
          simpa using hle
        · have hone : (List.filter
              (fun e => decide (e.student_id = sid) && decide (e.course_id = cid))
              [({ id := newId, status := EnrollmentStatus.pending, requested_at := now,
                  responded_at := none, student_id := student.id,
                  course_id := course.id } : Enrollment)]).length = 0 := by
            rw [List.length_eq_zero, List.filter_eq_nil_iff]
            intro e hmem hpred
            simp only [List.mem_singleton] at hmem
            simp only [Bool.and_eq_true, decide_eq_true_eq, hmem] at hpred
            exact hpair ⟨hpred.1.symm, hpred.2.symm⟩
          rw [hone]
          simpa using h sid cid

/-- Update `approveUpd` touches neither `student_id` nor `course_id`. -/
theorem approveUpd_preserves_pair (eid now : Nat) (e : Enrollment) :
    (approveUpd eid now e).student_id = e.student_id ∧
      (approveUpd eid now e).course_id = e.course_id := by
  by_cases he : e.id = eid <;> simp [approveUpd, he]

/-- Update `declineUpd` touches neither `student_id` nor `course_id`. -/
theorem declineUpd_preserves_pair (eid now : Nat) (e : Enrollment) :
    (declineUpd eid now e).student_id = e.student_id ∧
      (declineUpd eid now e).course_id = e.course_id := by
  by_cases he : e.id = eid <;> simp [declineUpd, he]

/-- The approve route either leaves the table unchanged or rewrites it
pointwise with `approveUpd`. -/
theorem approve_enrollment_fst (t : User) (eid now : Nat)
    (courses : List Course) (enrollments : List Enrollment) :
    (approve_enrollment t eid now courses enrollments).1 = enrollments ∨
      (approve_enrollment t eid now courses enrollments).1 =
        enrollments.map (approveUpd eid now) := by
  unfold approve_enrollment
  split
  · exact Or.inl rfl
  · split
    · exact Or.inl rfl
    · split
      · exact Or.inl rfl
      · exact Or.inr rfl

/-- The decline route either leaves the table unchanged or rewrites it
pointwise with `declineUpd`. -/
theorem decline_enrollment_fst (t : User) (eid now : Nat)
    (courses : List Course) (enrollments : List Enrollment) :
    (decline_enrollment t eid now courses enrollments).1 = enrollments ∨
      (decline_enrollment t eid now courses enrollments).1 =
        enrollments.map (declineUpd eid now) := by
  unfold decline_enrollment
  split
  · exact Or.inl rfl
  · split
    · exact Or.inl rfl
    · split
      · exact Or.inl rfl
      · exact Or.inr rfl

/-- The admin approve route either leaves the table unchanged or rewrites it
pointwise. -/
theorem admin_approve_enrollment_fst (eid now : Nat) (enrollments : List Enrollment) :
    (admin_approve_enrollment eid now enrollments).1 = enrollments ∨
      (admin_approve_enrollment eid now enrollments).1 =
        enrollments.map (approveUpd eid now) := by
  unfold admin_approve_enrollment
  split
  · exact Or.inl rfl
  · exact Or.inr rfl

/-- The admin decline route either leaves the table unchanged or rewrites it
pointwise. -/
theorem admin_decline_enrollment_fst (eid now : Nat) (enrollments : List Enrollment) :
    (admin_decline_enrollment eid now enrollments).1 = enrollments ∨
      (admin_decline_enrollment eid now enrollments).1 =
        enrollments.map (declineUpd eid now) := by
  unfold admin_decline_enrollment
  split
  · exact Or.inl rfl
  · exact Or.inr rfl

/-- Every action of `enrollStep` preserves the uniqueness invariant. -/
theorem enrollStep_uniquePerPair (courses : List Course)
    (enrollments : List Enrollment) (a : EnrollAction)
    (h : uniquePerPair enrollments) :
    uniquePerPair (enrollStep courses enrollments a) := by
  cases a
  case request s c now nid =>
    exact request_enrollment_uniquePerPair s c now nid enrollments h
  case approve t eid now =>
    show uniquePerPair (approve_enrollment t eid now courses enrollments).1
    rcases approve_enrollment_fst t eid now courses enrollments with h1 | h1 <;> rw [h1]
    · exact h
    · intro sid cid
      rw [pairCount_map (approveUpd eid now) (approveUpd_preserves_pair eid now)]
      exact h sid cid
  case decline t eid now =>
    show uniquePerPair (decline_enrollment t eid now courses enrollments).1
    rcases decline_enrollment_fst t eid now courses enrollments with h1 | h1 <;> rw [h1]
    · exact h
    · intro sid cid
      rw [pairCount_map (declineUpd eid now) (declineUpd_preserves_pair eid now)]
      exact h sid cid
  case adminApprove eid now =>
    show uniquePerPair (admin_approve_enrollment eid now enrollments).1
    rcases admin_approve_enrollment_fst eid now enrollments with h1 | h1 <;> rw [h1]
    · exact h
    · intro sid cid
      rw [pairCount_map (approveUpd eid now) (approveUpd_preserves_pair eid now)]
      exact h sid cid
  case adminDecline eid now =>
    show uniquePerPair (admin_decline_enrollment eid now enrollments).1
    rcases admin_decline_enrollment_fst eid now enrollments with h1 | h1 <;> rw [h1]
    · exact h
    · intro sid cid
      rw [pairCount_map (declineUpd eid now) (declineUpd_preserves_pair eid now)]
      exact h sid cid

/-- The invariant is preserved along any action sequence. -/
theorem foldl_enrollStep_uniquePerPair (courses : List Course)
    (acts : List EnrollAction) (enrollments : List Enrollment)
    (h : uniquePerPair enrollments) :
    uniquePerPair (acts.foldl (enrollStep courses) enrollments) := by
  induction acts generalizing enrollments with
  | nil => exact h
  | cons a as ih =>
    exact ih (enrollStep courses enrollments a) (enrollStep_uniquePerPair courses enrollments a h)

/-- C3: starting from an empty table, any sequence of sequentially processed
requests leaves at most one enrollment row per (student, course) pair, and a
row already present for the pair — in particular a declined one — makes a new
request for the pair leave the table unchanged (the existing record
short-circuits the operation). -/
theorem enrollment_at_most_one_per_pair (courses : List Course)
    (acts : List EnrollAction) :
    uniquePerPair (acts.foldl (enrollStep courses) []) ∧
      (∀ (student : User) (course : Course) (now newId : Nat)
        (enrollments : List Enrollment),
        (∃ e ∈ enrollments, e.student_id = student.id ∧ e.course_id = course.id ∧
          e.status = EnrollmentStatus.declined) →
        (request_enrollment student course now newId enrollments).1 = enrollments) := by
  constructor
  · apply foldl_enrollStep_uniquePerPair
    intro sid cid
    simp [pairCount]
  · rintro student course now newId enrollments ⟨e, hmem, h1, h2, -⟩
    cases hpaid : student.has_paid
    · simp [request_enrollment, hpaid]
    · cases hfind : enrollments.find?
          (fun e => decide (e.student_id = student.id) && decide (e.course_id = course.id))
      case some e2 => simp [request_enrollment, hpaid, hfind]
      case none =>
        rw [List.find?_eq_none] at hfind
        simp only [Bool.and_eq_true, decide_eq_true_eq] at hfind
        exact absurd ⟨h1, h2⟩ (hfind e hmem)

/-- Witness for C3: the empty action sequence keeps the invariant, and a
re-request after a decline changes nothing. -/
theorem enrollment_at_most_one_per_pair_witness :
    uniquePerPair (([] : List EnrollAction).foldl (enrollStep []) []) ∧
      (request_enrollment { id := 1, user_type := UserType.student, has_paid := true }
          { id := 2, max_students := 50, teacher_id := none } 5 9 [declinedRow]).1 =
        [declinedRow] :=
  ⟨(enrollment_at_most_one_per_pair [] []).1,
   (enrollment_at_most_one_per_pair [] []).2
     { id := 1, user_type := UserType.student, has_paid := true }
     { id := 2, max_students := 50, teacher_id := none } 5 9 [declinedRow]
     ⟨declinedRow, by simp, rfl, rfl, rfl⟩⟩

end BioLMS
